import Mathlib

/-!
Shallow embedding of the authentication/authorization core of the
A2A_with_DID repository: the `PolicyValidator` class of `src/policy.js`
and the `POST /a2a/authenticate` handler of the server (`2_server.js`,
in `src/unnamed/part_001`).

JavaScript objects are modelled by Lean structures whose fields are
`Option`-valued (absent property = `none`); a value that may also be
`null`, `undefined` or a non-object primitive is modelled by `JsVal`.
Two pieces of JavaScript semantics the policy code depends on are
modelled explicitly: computed property lookup walks the prototype
chain (`permissions[taskAction]` can hit an inherited
`Object.prototype` member, on which `.join` then throws), and the `in`
operator also sees inherited property names (and throws on a
non-object right operand).  `Date.now()` is impure, so each
time-dependent operation takes the current time `now` (epoch
milliseconds) as an explicit parameter.  Thrown exceptions are
modelled with `Except`.
-/

namespace A2ADID

/-- `credentialSubject.taskLog` object: only its `action` property is read. -/
structure TaskLog where
  action : Option String
  deriving DecidableEq

/-- The `credentialSubject` object of a credential.  `issuedAt` holds the
epoch-millisecond value of the (non-empty) date string when present;
`keys` lists the object's own property names.  The `in` check of the
schema rule sees these own names plus the inherited `Object.prototype`
names (see `objectProtoKeys`). -/
structure CredentialSubject where
  id : Option String
  taskLog : Option TaskLog
  issuedAt : Option Int
  keys : List String
  deriving DecidableEq

/-- The value found at `claims.type` (or `claims.vc.type`): an array of
type tags, a string (strings also have an `.includes` method, testing
substring containment), or any other value, which has no `.includes`
and makes rule 1 throw when it is truthy. -/
inductive TypeVal where
  | arr (tags : List String)
  | strv (s : String)
  | other (truthy : Bool)
  deriving DecidableEq

/-- JavaScript truthiness of a `type` value: arrays are always truthy
(even empty ones), a string is truthy iff non-empty. -/
def TypeVal.truthy : TypeVal → Bool
  | .arr _ => true
  | .strv s => !s.isEmpty
  | .other b => b

/-- The value found at `claims.credentialSubject` (or the `vc`
fallback): an object, or a non-object primitive.  Property access on a
primitive yields `undefined`; the `in` operator on it throws. -/
inductive SubjVal where
  | obj (s : CredentialSubject)
  | prim (truthy : Bool)
  deriving DecidableEq

/-- JavaScript truthiness of a `credentialSubject` value. -/
def SubjVal.truthy : SubjVal → Bool
  | .obj _ => true
  | .prim b => b

/-- The nested `claims.vc` object (fallback path used by
`checkPolicyCompliance` and `authorize`). -/
structure VcInner where
  type : Option TypeVal
  credentialSubject : Option SubjVal
  deriving DecidableEq

/-- A claims object as read by the policy engine: only the properties the
source accesses are modelled. -/
structure Claims where
  type : Option TypeVal
  vc : Option VcInner
  credentialSubject : Option SubjVal
  deriving DecidableEq

/-- The empty object `\x7b\x7d`: every access yields `undefined`. -/
def Claims.empty : Claims := { type := none, vc := none, credentialSubject := none }

/-- The empty `credentialSubject` used when both fallback paths are absent. -/
def CredentialSubject.empty : CredentialSubject :=
  { id := none, taskLog := none, issuedAt := none, keys := [] }

/-- A JavaScript value in argument position: `null`, `undefined`, a
non-object primitive (carrying its truthiness), or a claims object. -/
inductive JsVal where
  | vnull
  | vundefined
  | vprim (truthy : Bool)
  | vobj (c : Claims)
  deriving DecidableEq

/-- JavaScript truthiness of a `JsVal`. -/
def JsVal.truthy : JsVal → Bool
  | .vnull => false
  | .vundefined => false
  | .vprim b => b
  | .vobj _ => true

/-- A thrown JavaScript error. -/
inductive JsErr where
  | typeError (msg : String)
  deriving DecidableEq

/-- The immutable rule set installed by the `PolicyValidator` constructor
(`this.policies` in `src/policy.js`). -/
structure Policies where
  requiredVCTypes : List String
  allowedActions : List String
  maxVCAge : Nat
  deriving DecidableEq

/-- The concrete policy object built by the constructor. -/
def defaultPolicies : Policies :=
  { requiredVCTypes := ["TaskLogCredential"]
    allowedActions := ["OrderPizza", "QueryStatus", "UpdateProfile"]
    maxVCAge := 3600 }

/-- One entry of the `errors` array of `checkPolicyCompliance`, by which
rule produced it (the source pushes a message string; the constructor
arguments carry the data interpolated into that string). -/
inductive PolicyError where
  | missingRequiredType (required : List String)
  | disallowedAction (action : String)
  | expired (flooredAge : Int) (maxAge : Nat)
  | missingField (key : String)
  deriving DecidableEq

/-- Result object of `checkPolicyCompliance`. -/
structure ComplianceResult where
  compliant : Bool
  errors : List PolicyError
  deriving DecidableEq

/-- Result object of `checkRevocationStatus`. -/
structure RevocationStatus where
  revoked : Bool
  reason : Option String
  deriving DecidableEq

/-- Grant object returned by `authorize`. -/
structure Grant where
  authorized : Bool
  holderDID : Option String
  action : Option String
  permissions : List String
  expiresIn : Nat
  deriving DecidableEq

/-- The property names of `Object.prototype` (ECMA-262, including the
Annex B accessors): these are found by prototype-chain lookup on every
plain object literal, so `obj[k]` yields a truthy inherited value and
`k in obj` is true for every `k` in this list. -/
def objectProtoKeys : List String :=
  ["constructor", "hasOwnProperty", "isPrototypeOf", "propertyIsEnumerable",
   "toLocaleString", "toString", "valueOf",
   "__defineGetter__", "__defineSetter__", "__lookupGetter__", "__lookupSetter__",
   "__proto__"]

/-- `String.prototype.includes`: substring containment (the empty
pattern is contained in every string). -/
def jsStringIncludes (s pat : String) : Bool :=
  if pat = "" then true else (s.splitOn pat).length != 1

/-- `claims.vc?.type`. -/
def vcTypeVal (c : Claims) : Option TypeVal := c.vc.bind (fun v => v.type)

/-- The `claims.vc?.type || []` tail of the type fallback chain. -/
def typeFallback (c : Claims) : TypeVal :=
  match vcTypeVal c with
  | some t => if t.truthy then t else .arr []
  | none => .arr []

/-- `claims.type || claims.vc?.type || []`: JavaScript `||` keeps the
first truthy operand. -/
def effTypeVal (c : Claims) : TypeVal :=
  match c.type with
  | some t => if t.truthy then t else typeFallback c
  | none => typeFallback c

/-- `claims.vc?.credentialSubject`. -/
def vcSubjVal (c : Claims) : Option SubjVal := c.vc.bind (fun v => v.credentialSubject)

/-- The `claims.vc?.credentialSubject || \x7b\x7d` tail of the subject
fallback chain. -/
def subjFallback (c : Claims) : SubjVal :=
  match vcSubjVal c with
  | some s => if s.truthy then s else .obj CredentialSubject.empty
  | none => .obj CredentialSubject.empty

/-- `claims.credentialSubject || claims.vc?.credentialSubject || \x7b\x7d`. -/
def effSubjectV (c : Claims) : SubjVal :=
  match c.credentialSubject with
  | some s => if s.truthy then s else subjFallback c
  | none => subjFallback c

/-- `credentialSubject.taskLog?.action` on the effective subject
(property access on a primitive subject yields `undefined`). -/
def effAction (c : Claims) : Option String :=
  match effSubjectV c with
  | .obj s => s.taskLog.bind (fun t => t.action)
  | .prim _ => none

/-- `credentialSubject.id` on the effective subject. -/
def effSubjId (c : Claims) : Option String :=
  match effSubjectV c with
  | .obj s => s.id
  | .prim _ => none

/-- `credentialSubject.issuedAt` on the effective subject. -/
def effIssuedAt (c : Claims) : Option Int :=
  match effSubjectV c with
  | .obj s => s.issuedAt
  | .prim _ => none

/-- `checkRevocationStatus` (src/policy.js lines 29-38): the body ignores
its argument and always reports the credential as not revoked. -/
def checkRevocationStatus (_vcId : JsVal) : RevocationStatus :=
  { revoked := false, reason := none }

/-- Rule 1 of `checkPolicyCompliance`:
`requiredVCTypes.some(required => vcTypes.includes(required))`.  On an
array this is membership, on a string a substring test; any other
truthy `vcTypes` has no `.includes` method, so the first callback call
throws — `some` on an empty `requiredVCTypes` never calls the callback
and simply yields `false`. -/
def typeRuleCheck (pol : Policies) (c : Claims) : Except JsErr (List PolicyError) :=
  match effTypeVal c with
  | .arr tags =>
    .ok (if pol.requiredVCTypes.any (fun r => tags.contains r) then []
         else [PolicyError.missingRequiredType pol.requiredVCTypes])
  | .strv s =>
    .ok (if pol.requiredVCTypes.any (fun r => jsStringIncludes s r) then []
         else [PolicyError.missingRequiredType pol.requiredVCTypes])
  | .other _ =>
    if pol.requiredVCTypes.isEmpty then .ok [PolicyError.missingRequiredType pol.requiredVCTypes]
    else .error (.typeError "vcTypes.includes is not a function")

/-- Rule 2: `if (taskAction && !allowedActions.includes(taskAction))`.
An absent action or the falsy empty string skips the check. -/
def actionRuleErrors (pol : Policies) (c : Claims) : List PolicyError :=
  match effAction c with
  | some a =>
    if a != "" && !(pol.allowedActions.contains a) then [PolicyError.disallowedAction a]
    else []
  | none => []

/-- Rule 3: `if (issuedAt)` then `ageInSeconds = (Date.now() -
new Date(issuedAt).getTime()) / 1000` must not exceed `maxVCAge`,
strictly.  On integer millisecond values the exact comparison
`(now - t) / 1000 > maxVCAge` is equivalent to
`now - t > maxVCAge * 1000`, and `Math.floor(ageInSeconds)` (embedded
in the pushed message) is the floor division `(now - t) / 1000` on ℤ;
both equivalences are proved below (`ageCheck_eq_rational`,
`ageFloor_eq_rational`). -/
def ageRuleErrors (pol : Policies) (c : Claims) (now : Int) : List PolicyError :=
  match effIssuedAt c with
  | some t =>
    let ageMs : Int := now - t
    if ageMs > (pol.maxVCAge : Int) * 1000 then
      [PolicyError.expired (ageMs / 1000) pol.maxVCAge]
    else []
  | none => []

/-- Rule 4: when `requiredSchema` is supplied, the loop pushes one error
per schema key `k` with `!(k in credentialSubject)`; JavaScript `in`
counts own property names and the inherited `Object.prototype` names,
and throws a TypeError when the subject is a non-object (so a truthy
primitive subject with at least one schema key aborts the check on the
first iteration). -/
def schemaRuleCheck (c : Claims) (requiredSchema : Option (List String)) :
    Except JsErr (List PolicyError) :=
  match requiredSchema with
  | some keys =>
    match effSubjectV c with
    | .obj s =>
      .ok (keys.filterMap (fun k =>
        if s.keys.contains k || objectProtoKeys.contains k then none
        else some (PolicyError.missingField k)))
    | .prim _ =>
      match keys with
      | [] => .ok []
      | _ :: _ => .error (.typeError "Cannot use in operator on a non-object")
  | none => .ok []

/-- `checkPolicyCompliance` (src/policy.js lines 44-93) on an object
argument: the four rule blocks run in source order, pushing onto one
`errors` array (rules 1 and 4 can throw, aborting the call), and the
result is non-compliant exactly when that array is non-empty. -/
def checkPolicyComplianceClaims (pol : Policies) (c : Claims)
    (requiredSchema : Option (List String)) (now : Int) : Except JsErr ComplianceResult :=
  match typeRuleCheck pol c with
  | .error e => .error e
  | .ok errs1 =>
    let errs2 := actionRuleErrors pol c
    let errs3 := ageRuleErrors pol c now
    match schemaRuleCheck c requiredSchema with
    | .error e => .error e
    | .ok errs4 =>
      let errors := errs1 ++ errs2 ++ errs3 ++ errs4
      if errors.length > 0 then .ok { compliant := false, errors := errors }
      else .ok { compliant := true, errors := [] }

/-- `checkPolicyCompliance` on an arbitrary value.  The first statement
`claims.type` (no optional chaining) throws a TypeError on `null` or
`undefined`; on a non-object primitive every property access yields
`undefined`, which behaves like the empty claims object; on an object
the rule checks may still throw (rules 1 and 4 above). -/
def checkPolicyComplianceVal (pol : Policies) (v : JsVal)
    (requiredSchema : Option (List String)) (now : Int) : Except JsErr ComplianceResult :=
  match v with
  | .vnull => .error (.typeError "Cannot read properties of null")
  | .vundefined => .error (.typeError "Cannot read properties of undefined")
  | .vprim _ => checkPolicyComplianceClaims pol Claims.empty requiredSchema now
  | .vobj c => checkPolicyComplianceClaims pol c requiredSchema now

/-- Outcome of the computed lookup `permissions[taskAction]` on the
`permissions` object literal of `authorize`: an own property (one of
the three mapped arrays), an inherited `Object.prototype` member
(truthy, not an array), or `undefined`. -/
inductive PermLookup where
  | arr (perms : List String)
  | inherited
  | absent
  deriving DecidableEq

/-- The own properties of the `permissions` object literal. -/
def ownPermissions : List (String × List String) :=
  [("OrderPizza", ["read:menu", "write:order"]),
   ("QueryStatus", ["read:status"]),
   ("UpdateProfile", ["write:profile"])]

/-- `permissions[taskAction]`: own-property lookup first, then the
prototype chain — an action naming an `Object.prototype` member finds
the inherited function/object instead of `undefined`. -/
def permissionsLookup : Option String → PermLookup
  | none => .absent
  | some a =>
    match ownPermissions.lookup a with
    | some ps => .arr ps
    | none => if objectProtoKeys.contains a then .inherited else .absent

/-- `authorize` (src/policy.js lines 98-124) on an object argument:
`grantedPermissions = permissions[taskAction] || []`, then
`grantedPermissions.join(', ')` inside the log line — when the lookup
hit an inherited `Object.prototype` member the `|| []` keeps that
truthy non-array and `.join` throws a TypeError; otherwise the grant is
returned unconditionally with `authorized: true` and a fixed one-hour
expiry. -/
def authorizeClaims (c : Claims) : Except JsErr Grant :=
  match permissionsLookup (effAction c) with
  | .inherited => .error (.typeError "grantedPermissions.join is not a function")
  | .arr grantedPermissions =>
    .ok { authorized := true
          holderDID := effSubjId c
          action := effAction c
          permissions := grantedPermissions
          expiresIn := 3600 }
  | .absent =>
    .ok { authorized := true
          holderDID := effSubjId c
          action := effAction c
          permissions := []
          expiresIn := 3600 }

/-- `authorize` on an arbitrary value: `claims.credentialSubject` throws
on `null`/`undefined`; a primitive behaves like the empty object. -/
def authorizeVal : JsVal → Except JsErr Grant
  | .vnull => .error (.typeError "Cannot read properties of null")
  | .vundefined => .error (.typeError "Cannot read properties of undefined")
  | .vprim _ => authorizeClaims Claims.empty
  | .vobj c => authorizeClaims c

/-- Decoded content of the base64-encoded `accessToken` JSON built by
`generateAuthToken` (the encoding is injective, so the payload itself is
modelled). -/
structure TokenPayload where
  did : Option String
  action : Option String
  permissions : List String
  exp : Int
  deriving DecidableEq

/-- Token object returned by `generateAuthToken`. -/
structure AuthToken where
  tokenType : String
  accessToken : TokenPayload
  expiresIn : Nat
  deriving DecidableEq

/-- `generateAuthToken` (src/policy.js lines 129-144):
`exp = Math.floor(Date.now()/1000) + expiresIn` (floor division). -/
def generateAuthToken (authResult : Grant) (now : Int) : AuthToken :=
  { tokenType := "Bearer"
    accessToken :=
      { did := authResult.holderDID
        action := authResult.action
        permissions := authResult.permissions
        exp := Int.fdiv now 1000 + authResult.expiresIn }
    expiresIn := authResult.expiresIn }

/-- The object `verifiedVP.verifiablePresentation` of a successful
`verifyPresentation` result: only its `verifiableCredential` array is
read. -/
structure VPEnvelope where
  verifiableCredential : Option (List JsVal)
  deriving DecidableEq

/-- A successful `verifyPresentation` result, as read by the handler:
the nested `verifiablePresentation.verifiableCredential` array and the
top-level `verifiableCredential` fallback array. -/
structure VerifiedVP where
  verifiablePresentation : Option VPEnvelope
  verifiableCredential : Option (List JsVal)
  deriving DecidableEq

/-- Outcome of `await verifyPresentation(vpJwt, didResolver)`: the
library either throws (signature or resolution failure) or returns a
verified presentation object. -/
inductive VerifyOutcome where
  | failure (msg : String)
  | success (vp : VerifiedVP)
  deriving DecidableEq

/-- `verifiedVP.verifiablePresentation?.verifiableCredential?.[0]
|| verifiedVP.verifiableCredential?.[0]`: optional chaining yields
`undefined` on a missing link or empty array, and a falsy first operand
falls through to the top-level array. -/
def extractCredExpr (v : VerifiedVP) : JsVal :=
  let nested : JsVal :=
    match v.verifiablePresentation with
    | none => .vundefined
    | some env =>
      match env.verifiableCredential with
      | none => .vundefined
      | some l => l.headD .vundefined
  if nested.truthy then nested
  else
    match v.verifiableCredential with
    | none => .vundefined
    | some l => l.headD .vundefined

/-- `credential.credentialSubject?.id` (direct property only; no `vc`
fallback at this call site in the handler; `.id` on a primitive subject
yields `undefined`). -/
def directSubjectId : JsVal → Option String
  | .vobj c =>
    match c.credentialSubject with
    | some (.obj s) => s.id
    | _ => none
  | _ => none

/-- JavaScript `a || b` on optional strings: empty string is falsy. -/
def jsOrString (a b : Option String) : Option String :=
  match a with
  | some s => if s = "" then b else some s
  | none => b

/-- Why an authentication attempt was rejected (the `error` field of the
401/403 JSON response, kept structured). -/
inductive RejectReason where
  | vpRequired
  | verifyError (msg : String)
  | noCredential
  | revokedVC (reason : Option String)
  | policyViolation (errors : List PolicyError)
  | notAuthorized
  | jsError (e : JsErr)
  deriving DecidableEq

/-- Body of the handler's JSON response: either a rejection carrying the
failure reason, or the success payload with the issued token. -/
inductive ResponseBody where
  | rejected (r : RejectReason)
  | granted (clientDid : Option String) (authToken : TokenPayload)
  deriving DecidableEq

/-- An HTTP response of the handler: status code and body. -/
structure HttpResponse where
  status : Nat
  body : ResponseBody
  deriving DecidableEq

/-- The `POST /a2a/authenticate` handler (src/unnamed/part_001 lines
358-414).  `vp` is `req.body.vp`; `verify` is the outcome of the
external `verifyPresentation` call on that token; `now` the current
time.  Every throw inside the `try` block lands in the catch, which
answers 403 with the error message. -/
def handleAuthenticate (pol : Policies) (vp : Option String)
    (verify : VerifyOutcome) (now : Int) : HttpResponse :=
  match vp with
  | none => { status := 401, body := .rejected .vpRequired }
  | some s =>
    if s = "" then { status := 401, body := .rejected .vpRequired }
    else
      match verify with
      | .failure msg => { status := 403, body := .rejected (.verifyError msg) }
      | .success vvp =>
        let credential := extractCredExpr vvp
        if ¬credential.truthy then { status := 403, body := .rejected .noCredential }
        else
          let revocationStatus := checkRevocationStatus credential
          if revocationStatus.revoked then
            { status := 403, body := .rejected (.revokedVC revocationStatus.reason) }
          else
            match checkPolicyComplianceVal pol credential none now with
            | .error e => { status := 403, body := .rejected (.jsError e) }
            | .ok complianceResult =>
              if ¬complianceResult.compliant then
                { status := 403, body := .rejected (.policyViolation complianceResult.errors) }
              else
                match authorizeVal credential with
                | .error e => { status := 403, body := .rejected (.jsError e) }
                | .ok authResult =>
                  if ¬authResult.authorized then
                    { status := 403, body := .rejected .notAuthorized }
                  else
                    let authToken := generateAuthToken authResult now
                    let clientDid := jsOrString (directSubjectId credential) authResult.holderDID
                    { status := 200, body := .granted clientDid authToken.accessToken }

/-- An embedded credential of a presentation token, as the external
verifier sees it: its decoded claims and whether its signature verifies
against its issuer's resolved key. -/
structure EmbeddedCredential where
  claims : JsVal
  signatureValid : Bool
  deriving DecidableEq

/-- A signed presentation token, as the external verifier sees it. -/
structure PresentationToken where
  holderSignatureValid : Bool
  credentials : List EmbeddedCredential
  deriving DecidableEq

/-- Modelled from the spec: `verifyPresentation` of the did-jwt-vc
library (not part of this repository), per section 4.3 — verify the
presentation signature, then every embedded credential's signature
independently, failing with a signature-class error if any check fails;
only a fully verified presentation is returned. -/
def verifyPresentationModel (p : PresentationToken) : VerifyOutcome :=
  if !p.holderSignatureValid then .failure "invalid_signature"
  else if p.credentials.any (fun c => !c.signatureValid) then
    .failure "invalid_credential_signature"
  else
    .success
      { verifiablePresentation := some { verifiableCredential := some (p.credentials.map (fun c => c.claims)) }
        verifiableCredential := none }

/-- Whether a response carries an issued token. -/
def issuesToken (r : HttpResponse) : Bool :=
  match r.body with
  | .granted _ _ => true
  | .rejected _ => false

/-- Whether a response is a structured rejection. -/
def isRejection (r : HttpResponse) : Bool :=
  match r.body with
  | .rejected _ => true
  | .granted _ _ => false

/-- Whether a response is the revocation rejection branch. -/
def isRevocationRejection (r : HttpResponse) : Bool :=
  match r.body with
  | .rejected (.revokedVC _) => true
  | _ => false

/-- All gating checks of the handler, in handler order: a verified
presentation was supplied, a credential was extracted, it is not
revoked, it is policy-compliant, and authorization was granted. -/
def checksPass (pol : Policies) (vp : Option String)
    (verify : VerifyOutcome) (now : Int) : Bool :=
  match vp with
  | none => false
  | some s =>
    if s = "" then false
    else
      match verify with
      | .failure _ => false
      | .success vvp =>
        let credential := extractCredExpr vvp
        if ¬credential.truthy then false
        else if (checkRevocationStatus credential).revoked then false
        else
          match checkPolicyComplianceVal pol credential none now with
          | .error _ => false
          | .ok complianceResult =>
            if ¬complianceResult.compliant then false
            else
              match authorizeVal credential with
              | .error _ => false
              | .ok authResult => authResult.authorized

/-- Predicate picking out the expiry-rule error among policy errors. -/
def isExpiredErr : PolicyError → Bool
  | .expired _ _ => true
  | _ => false

/-- Rule 1 does not throw: the effective type value has an `.includes`
method (array or string), or `requiredVCTypes` is empty so the `some`
callback never runs. -/
def typeIncludesOk (pol : Policies) (c : Claims) : Bool :=
  match effTypeVal c with
  | .other _ => pol.requiredVCTypes.isEmpty
  | _ => true

/-- Rule 4 does not throw: no schema key is tested with `in` against a
primitive subject. -/
def schemaInOk (c : Claims) (requiredSchema : Option (List String)) : Bool :=
  match requiredSchema with
  | some (_ :: _) =>
    match effSubjectV c with
    | .prim _ => false
    | .obj _ => true
  | _ => true

/-- `checkPolicyCompliance` on this claims object returns (rather than
throws) for the given schema. -/
def complianceThrowFree (pol : Policies) (c : Claims)
    (requiredSchema : Option (List String)) : Bool :=
  typeIncludesOk pol c && schemaInOk c requiredSchema

/-- `complianceThrowFree` lifted to arbitrary values (vacuously true off
objects; `null`/`undefined` are excluded separately). -/
def complianceThrowFreeVal (pol : Policies) (v : JsVal)
    (requiredSchema : Option (List String)) : Bool :=
  match v with
  | .vobj c => complianceThrowFree pol c requiredSchema
  | _ => true

/-- `authorize` on this claims object returns (rather than throws): the
permissions lookup does not hit an inherited `Object.prototype`
member. -/
def authorizeThrowFree (c : Claims) : Bool :=
  match permissionsLookup (effAction c) with
  | .inherited => false
  | _ => true

/-- `authorizeThrowFree` lifted to arbitrary values. -/
def authorizeThrowFreeVal : JsVal → Bool
  | .vobj c => authorizeThrowFree c
  | _ => true

/-- The millisecond-exact age comparison used in `ageRuleErrors` agrees
with the source's rational form `(now - t) / 1000 > maxVCAge`. -/
theorem ageCheck_eq_rational (d : Int) (m : Nat) :
    (d > (m : Int) * 1000) ↔ ((d : ℚ) / 1000 > (m : ℚ)) := by
  rw [gt_iff_lt, gt_iff_lt, lt_div_iff₀ (by norm_num : (0 : ℚ) < 1000)]
  exact_mod_cast Iff.rfl

/-- The floored age recorded in the expiry error agrees with the
source's `Math.floor(ageInSeconds)` on the exact rational age. -/
theorem ageFloor_eq_rational (d : Int) : ⌊(d : ℚ) / ((1000 : ℕ) : ℚ)⌋ = d / 1000 :=
  Rat.floor_intCast_div_natCast d 1000

/-- When neither throwing rule fires, the compliance result is
determined by the concatenated rule error lists: `compliant` is the
emptiness of the concatenation and `errors` is the concatenation
itself. -/
theorem compliance_result_eq (pol : Policies) (c : Claims)
    (schema : Option (List String)) (now : Int) (e1 e4 : List PolicyError)
    (h1 : typeRuleCheck pol c = .ok e1) (h4 : schemaRuleCheck c schema = .ok e4) :
    checkPolicyComplianceClaims pol c schema now =
      .ok { compliant := (e1 ++ actionRuleErrors pol c ++ ageRuleErrors pol c now ++ e4).isEmpty
            errors := e1 ++ actionRuleErrors pol c ++ ageRuleErrors pol c now ++ e4 } := by
  unfold checkPolicyComplianceClaims
  rw [h1, h4]
  dsimp only
  generalize e1 ++ actionRuleErrors pol c ++ ageRuleErrors pol c now ++ e4 = l
  cases l with
  | nil => simp
  | cons x xs => simp

/-- A non-throwing run of the type rule yields no expiry error. -/
theorem typeRule_no_expired (pol : Policies) (c : Claims) (e1 : List PolicyError)
    (h : typeRuleCheck pol c = .ok e1) : e1.any isExpiredErr = false := by
  unfold typeRuleCheck at h
  cases heff : effTypeVal c <;> rw [heff] at h
  case arr tags =>
    dsimp only at h
    split at h <;> (injection h with h'; subst h'; rfl)
  case strv s =>
    dsimp only at h
    split at h <;> (injection h with h'; subst h'; rfl)
  case other b =>
    dsimp only at h
    split at h
    · injection h with h'
      subst h'
      rfl
    · exact absurd h (by simp)

/-- A non-throwing run of the type rule yields at most one error. -/
theorem typeRule_len (pol : Policies) (c : Claims) (e1 : List PolicyError)
    (h : typeRuleCheck pol c = .ok e1) : e1.length ≤ 1 := by
  unfold typeRuleCheck at h
  cases heff : effTypeVal c <;> rw [heff] at h
  case arr tags =>
    dsimp only at h
    split at h <;> (injection h with h'; subst h'; simp)
  case strv s =>
    dsimp only at h
    split at h <;> (injection h with h'; subst h'; simp)
  case other b =>
    dsimp only at h
    split at h
    · injection h with h'
      subst h'
      simp
    · exact absurd h (by simp)

/-- The action rule never produces an expiry error. -/
theorem actionRule_no_expired (pol : Policies) (c : Claims) :
    (actionRuleErrors pol c).any isExpiredErr = false := by
  unfold actionRuleErrors
  rcases effAction c with _ | a
  · rfl
  · dsimp only
    split <;> rfl

/-- A non-throwing run of the schema rule yields no expiry error. -/
theorem schemaRule_no_expired (c : Claims) (schema : Option (List String))
    (e4 : List PolicyError) (h : schemaRuleCheck c schema = .ok e4) :
    e4.any isExpiredErr = false := by
  unfold schemaRuleCheck at h
  cases schema with
  | none =>
    injection h with h'
    subst h'
    rfl
  | some keys =>
    cases hs : effSubjectV c <;> rw [hs] at h
    case obj s =>
      dsimp only at h
      injection h with h'
      subst h'
      rw [List.any_eq_false]
      intro e he
      rw [List.mem_filterMap] at he
      obtain ⟨k, -, hk⟩ := he
      split at hk
      · exact absurd hk (by simp)
      · obtain rfl : PolicyError.missingField k = e := Option.some.inj hk
        simp [isExpiredErr]
    case prim b =>
      cases keys with
      | nil =>
        injection h with h'
        subst h'
        rfl
      | cons k ks => exact absurd h (by simp)

/-- Without an `issuedAt`, the age rule contributes nothing. -/
theorem ageRule_empty_of_no_issuedAt (pol : Policies) (c : Claims) (now : Int)
    (h : effIssuedAt c = none) :
    ageRuleErrors pol c now = [] := by
  unfold ageRuleErrors
  rw [h]

/-- When rule 1 cannot throw, it returns an error list. -/
theorem typeRuleCheck_ok_of_includesOk (pol : Policies) (c : Claims)
    (h : typeIncludesOk pol c = true) : ∃ e1, typeRuleCheck pol c = .ok e1 := by
  unfold typeIncludesOk at h
  unfold typeRuleCheck
  cases heff : effTypeVal c with
  | arr tags => exact ⟨_, rfl⟩
  | strv s => exact ⟨_, rfl⟩
  | other b =>
    rw [heff] at h
    dsimp only at h
    dsimp only
    rw [if_pos h]
    exact ⟨_, rfl⟩

/-- When rule 4 cannot throw, it returns an error list. -/
theorem schemaRuleCheck_ok_of_inOk (c : Claims) (schema : Option (List String))
    (h : schemaInOk c schema = true) : ∃ e4, schemaRuleCheck c schema = .ok e4 := by
  unfold schemaInOk at h
  unfold schemaRuleCheck
  cases schema with
  | none => exact ⟨_, rfl⟩
  | some keys =>
    cases keys with
    | nil =>
      cases hs : effSubjectV c with
      | obj s => exact ⟨_, rfl⟩
      | prim b => exact ⟨_, rfl⟩
    | cons k ks =>
      cases hs : effSubjectV c with
      | obj s => exact ⟨_, rfl⟩
      | prim b =>
        rw [hs] at h
        exact absurd h (by simp)

/-- When the permissions lookup does not hit the prototype chain,
`authorize` returns a grant. -/
theorem authorize_ok_of_throwFree (c : Claims) (h : authorizeThrowFree c = true) :
    ∃ g, authorizeClaims c = .ok g := by
  unfold authorizeThrowFree at h
  unfold authorizeClaims
  cases hl : permissionsLookup (effAction c) with
  | arr ps => exact ⟨_, rfl⟩
  | inherited =>
    rw [hl] at h
    exact absurd h (by simp)
  | absent => exact ⟨_, rfl⟩

/-- C2 counterexample: for the claims' taskLog action "toString", the
lookup `permissions['toString']` finds the inherited
`Object.prototype.toString` — a truthy non-array kept by `|| []` — and
`authorize` throws a TypeError at `grantedPermissions.join`, so an
unlisted action can cause a failure. -/
theorem authorize_throws_on_proto_action :
    authorizeVal (.vobj ⟨none, none, some (.obj ⟨none, some ⟨some "toString"⟩, none, []⟩)⟩) =
      .error (.typeError "grantedPermissions.join is not a function") := rfl

/-- C2 (amended): for every claims object whose taskLog action does not
name an `Object.prototype` member, `authorize` returns a grant with
`authorized = true` and `expiresIn = 3600`, whose permissions are
exactly the two-element set for action "OrderPizza", the singleton for
"QueryStatus", the singleton for "UpdateProfile", and empty for any
other or missing action; an action naming an `Object.prototype` member
(such as "toString") instead makes `authorize` throw a TypeError,
because the computed lookup finds the inherited member and `.join` is
called on a non-array. -/
theorem authorize_least_privilege (c : Claims) (h : authorizeThrowFree c = true) :
    ∃ g, authorizeVal (.vobj c) = .ok g ∧ g.authorized = true ∧ g.expiresIn = 3600 ∧
      g.permissions =
        (if effAction c = some "OrderPizza" then ["read:menu", "write:order"]
         else if effAction c = some "QueryStatus" then ["read:status"]
         else if effAction c = some "UpdateProfile" then ["write:profile"]
         else []) := by
  unfold authorizeThrowFree at h
  rcases ha : effAction c with _ | a
  · refine ⟨⟨true, effSubjId c, none, [], 3600⟩, ?_, rfl, rfl, ?_⟩
    · show authorizeClaims c = _
      unfold authorizeClaims
      rw [ha]
      rfl
    · simp
  · by_cases h1 : a = "OrderPizza"
    · subst h1
      refine ⟨⟨true, effSubjId c, some "OrderPizza", ["read:menu", "write:order"], 3600⟩,
        ?_, rfl, rfl, ?_⟩
      · show authorizeClaims c = _
        unfold authorizeClaims
        rw [ha]
        rfl
      · simp
    · by_cases h2 : a = "QueryStatus"
      · subst h2
        refine ⟨⟨true, effSubjId c, some "QueryStatus", ["read:status"], 3600⟩, ?_, rfl, rfl, ?_⟩
        · show authorizeClaims c = _
          unfold authorizeClaims
          rw [ha]
          rfl
        · simp
      · by_cases h3 : a = "UpdateProfile"
        · subst h3
          refine ⟨⟨true, effSubjId c, some "UpdateProfile", ["write:profile"], 3600⟩,
            ?_, rfl, rfl, ?_⟩
          · show authorizeClaims c = _
            unfold authorizeClaims
            rw [ha]
            rfl
          · simp
        · have e1 : (a == "OrderPizza") = false := beq_eq_false_iff_ne.mpr h1
          have e2 : (a == "QueryStatus") = false := beq_eq_false_iff_ne.mpr h2
          have e3 : (a == "UpdateProfile") = false := beq_eq_false_iff_ne.mpr h3
          by_cases hp : a ∈ objectProtoKeys
          · have hlk : permissionsLookup (some a) = .inherited := by
              simp [permissionsLookup, ownPermissions, List.lookup, e1, e2, e3, hp]
            rw [ha, hlk] at h
            exact absurd h (by simp)
          · have hlk : permissionsLookup (some a) = .absent := by
              simp [permissionsLookup, ownPermissions, List.lookup, e1, e2, e3, hp]
            refine ⟨⟨true, effSubjId c, some a, [], 3600⟩, ?_, rfl, rfl, ?_⟩
            · show authorizeClaims c = _
              unfold authorizeClaims
              rw [ha, hlk]
            · simp [h1, h2, h3]

/-- Witness for the amended C2 at a claims object with action
"OrderPizza". -/
theorem authorize_least_privilege_witness :
    authorizeThrowFree ⟨none, none, some (.obj ⟨some "did:x", some ⟨some "OrderPizza"⟩, none, []⟩)⟩ = true ∧
      ∃ g, authorizeVal (.vobj ⟨none, none, some (.obj ⟨some "did:x", some ⟨some "OrderPizza"⟩, none, []⟩)⟩) = .ok g ∧
        g.authorized = true ∧ g.expiresIn = 3600 ∧
        g.permissions =
          (if effAction ⟨none, none, some (.obj ⟨some "did:x", some ⟨some "OrderPizza"⟩, none, []⟩)⟩ = some "OrderPizza" then ["read:menu", "write:order"]
           else if effAction ⟨none, none, some (.obj ⟨some "did:x", some ⟨some "OrderPizza"⟩, none, []⟩)⟩ = some "QueryStatus" then ["read:status"]
           else if effAction ⟨none, none, some (.obj ⟨some "did:x", some ⟨some "OrderPizza"⟩, none, []⟩)⟩ = some "UpdateProfile" then ["write:profile"]
           else []) :=
  ⟨by decide, authorize_least_privilege _ (by decide)⟩

/-- C6 counterexample: `checkPolicyCompliance` applied to `null` and
`authorize` applied to `undefined` both throw a TypeError (the first
property access has no optional chaining), so they do not return a
structured result for every input value. -/
theorem compliance_throws_on_null :
    checkPolicyComplianceVal defaultPolicies .vnull none 0 =
        .error (.typeError "Cannot read properties of null") ∧
      authorizeVal .vundefined = .error (.typeError "Cannot read properties of undefined") :=
  ⟨rfl, rfl⟩

/-- C6 (amended): `checkPolicyCompliance` and `authorize` return a
structured result for every value except the throwing cases: `null` and
`undefined` (TypeError at the first property access); for
`checkPolicyCompliance`, a claims object whose effective `type` is
truthy but neither an array nor a string while `requiredVCTypes` is
non-empty (`vcTypes.includes is not a function`), or whose effective
`credentialSubject` is a truthy primitive while a non-empty
`requiredSchema` is supplied (`in` on a non-object); for `authorize`, a
claims object whose action names an inherited `Object.prototype`
member (`.join` on a non-array). -/
theorem compliance_authorize_total_on_nonnull (v : JsVal)
    (schema : Option (List String)) (now : Int)
    (h1 : v ≠ .vnull) (h2 : v ≠ .vundefined)
    (h3 : complianceThrowFreeVal defaultPolicies v schema = true)
    (h4 : authorizeThrowFreeVal v = true) :
    (∃ r, checkPolicyComplianceVal defaultPolicies v schema now = .ok r) ∧
      ∃ g, authorizeVal v = .ok g := by
  cases v with
  | vnull => exact absurd rfl h1
  | vundefined => exact absurd rfl h2
  | vprim b =>
    constructor
    · obtain ⟨e1, he1⟩ := typeRuleCheck_ok_of_includesOk defaultPolicies Claims.empty (by decide)
      obtain ⟨e4, he4⟩ := schemaRuleCheck_ok_of_inOk Claims.empty schema (by
        cases schema with
        | none => rfl
        | some ks => cases ks <;> rfl)
      exact ⟨_, compliance_result_eq defaultPolicies Claims.empty schema now e1 e4 he1 he4⟩
    · exact ⟨_, by rfl⟩
  | vobj c =>
    unfold complianceThrowFreeVal at h3
    unfold authorizeThrowFreeVal at h4
    unfold complianceThrowFree at h3
    rw [Bool.and_eq_true] at h3
    obtain ⟨ha, hb⟩ := h3
    obtain ⟨e1, he1⟩ := typeRuleCheck_ok_of_includesOk defaultPolicies c ha
    obtain ⟨e4, he4⟩ := schemaRuleCheck_ok_of_inOk c schema hb
    exact ⟨⟨_, compliance_result_eq defaultPolicies c schema now e1 e4 he1 he4⟩,
      authorize_ok_of_throwFree c h4⟩

/-- Witness for the amended C6 at the empty claims object. -/
theorem compliance_authorize_total_on_nonnull_witness :
    JsVal.vobj Claims.empty ≠ .vnull ∧ JsVal.vobj Claims.empty ≠ .vundefined ∧
      complianceThrowFreeVal defaultPolicies (.vobj Claims.empty) none = true ∧
      authorizeThrowFreeVal (.vobj Claims.empty) = true ∧
      ((∃ r, checkPolicyComplianceVal defaultPolicies (.vobj Claims.empty) none 0 = .ok r) ∧
        ∃ g, authorizeVal (.vobj Claims.empty) = .ok g) :=
  ⟨by decide, by decide, by decide, by decide,
    compliance_authorize_total_on_nonnull (.vobj Claims.empty) none 0
      (by decide) (by decide) (by decide) (by decide)⟩

/-- C7 counterexample: two calls of `checkPolicyCompliance` on identical
claims and schema give different results when the clock has advanced
across the freshness boundary — a TaskLogCredential issued at epoch 0
is compliant at 3600000 ms but expired at 3601000 ms. -/
theorem compliance_not_time_idempotent :
    checkPolicyComplianceClaims defaultPolicies
        ⟨some (.arr ["TaskLogCredential"]), none, some (.obj ⟨none, none, some 0, []⟩)⟩ none 3600000 ≠
      checkPolicyComplianceClaims defaultPolicies
        ⟨some (.arr ["TaskLogCredential"]), none, some (.obj ⟨none, none, some 0, []⟩)⟩ none 3601000 := by
  intro h
  rw [show checkPolicyComplianceClaims defaultPolicies
        ⟨some (.arr ["TaskLogCredential"]), none, some (.obj ⟨none, none, some 0, []⟩)⟩ none 3600000 =
      .ok { compliant := true, errors := [] } from rfl,
    show checkPolicyComplianceClaims defaultPolicies
        ⟨some (.arr ["TaskLogCredential"]), none, some (.obj ⟨none, none, some 0, []⟩)⟩ none 3601000 =
      .ok { compliant := false, errors := [.expired 3601 3600] } from rfl] at h
  simp at h

/-- C7 (amended): `checkPolicyCompliance` on identical claims and
schema yields identical results whenever the two calls observe the same
`Date.now()` reading, and also across different readings whenever the
claims carry no `issuedAt` (the age rule is the only time-dependent
part); results can differ otherwise as the credential ages past the
freshness boundary. -/
theorem compliance_deterministic_given_clock (c : Claims)
    (schema : Option (List String)) (t₁ t₂ : Int)
    (h : t₁ = t₂ ∨ effIssuedAt c = none) :
    checkPolicyComplianceClaims defaultPolicies c schema t₁ =
      checkPolicyComplianceClaims defaultPolicies c schema t₂ := by
  rcases h with h | h
  · rw [h]
  · unfold checkPolicyComplianceClaims
    rw [ageRule_empty_of_no_issuedAt defaultPolicies c t₁ h,
      ageRule_empty_of_no_issuedAt defaultPolicies c t₂ h]

/-- Witness for the amended C7 on claims without `issuedAt` at two
different clock readings. -/
theorem compliance_deterministic_given_clock_witness :
    ((0 : Int) = 1 ∨ effIssuedAt Claims.empty = none) ∧
      checkPolicyComplianceClaims defaultPolicies Claims.empty none 0 =
        checkPolicyComplianceClaims defaultPolicies Claims.empty none 1 :=
  ⟨Or.inr rfl, compliance_deterministic_given_clock Claims.empty none 0 1 (Or.inr rfl)⟩

/-- C8: `checkRevocationStatus` reports every input as not revoked, so
the revocation-rejection branch of the authentication handler is
unreachable for every request. -/
theorem revocation_branch_unreachable :
    (∀ v : JsVal, checkRevocationStatus v = { revoked := false, reason := none }) ∧
      ∀ (pol : Policies) (vp : Option String) (verify : VerifyOutcome) (now : Int),
        isRevocationRejection (handleAuthenticate pol vp verify now) = false := by
  refine ⟨fun v => rfl, fun pol vp verify now => ?_⟩
  cases vp with
  | none => rfl
  | some s =>
    unfold handleAuthenticate
    dsimp only
    by_cases hs : s = ""
    · simp [hs, isRevocationRejection]
    · rw [if_neg hs]
      cases verify with
      | failure msg => rfl
      | success vvp =>
        dsimp only
        by_cases hc : (extractCredExpr vvp).truthy
        · simp only [hc, not_true_eq_false, if_false, checkRevocationStatus, if_neg]
          cases hcomp : checkPolicyComplianceVal pol (extractCredExpr vvp) none now with
          | error e => rfl
          | ok comp =>
            dsimp only
            by_cases hcc : comp.compliant
            · simp only [hcc, not_true_eq_false, if_false]
              cases hauth : authorizeVal (extractCredExpr vvp) with
              | error e => rfl
              | ok auth =>
                dsimp only
                by_cases ha : auth.authorized
                · simp [ha, isRevocationRejection]
                · simp [ha, isRevocationRejection]
            · simp [hcc, isRevocationRejection]
        · simp [hc, isRevocationRejection]

/-- C9: given successful verification, the handler's entire decision —
revocation, compliance, authorization and the issued token's payload —
depends only on the first embedded credential of the verified
presentation; further embedded credentials and the top-level fallback
array are irrelevant. -/
theorem decision_depends_on_first_credential (pol : Policies) (s : String)
    (now : Int) (c : Claims) (rest₁ rest₂ : List JsVal)
    (tl₁ tl₂ : Option (List JsVal)) :
    handleAuthenticate pol (some s)
        (.success
          { verifiablePresentation := some { verifiableCredential := some (.vobj c :: rest₁) }
            verifiableCredential := tl₁ }) now =
      handleAuthenticate pol (some s)
        (.success
          { verifiablePresentation := some { verifiableCredential := some (.vobj c :: rest₂) }
            verifiableCredential := tl₂ }) now := rfl

/-- C10: when the effective `credentialSubject` declares no `issuedAt`,
`checkPolicyCompliance` performs no age check at all — the age rule
contributes no errors, so no outcome of the call, for any rule set
(hence any `maxVCAge`) and any time, carries an expiry violation. -/
theorem no_age_check_without_issuedAt (pol : Policies) (c : Claims)
    (schema : Option (List String)) (now : Int)
    (h : effIssuedAt c = none) :
    ageRuleErrors pol c now = [] ∧
      ∀ r, checkPolicyComplianceVal pol (.vobj c) schema now = .ok r →
        r.errors.any isExpiredErr = false := by
  refine ⟨ageRule_empty_of_no_issuedAt pol c now h, ?_⟩
  intro r hr
  change checkPolicyComplianceClaims pol c schema now = .ok r at hr
  cases h1 : typeRuleCheck pol c with
  | error e =>
    unfold checkPolicyComplianceClaims at hr
    rw [h1] at hr
    exact absurd hr (by simp)
  | ok e1 =>
    cases h4 : schemaRuleCheck c schema with
    | error e =>
      unfold checkPolicyComplianceClaims at hr
      rw [h1, h4] at hr
      exact absurd hr (by simp)
    | ok e4 =>
      rw [compliance_result_eq pol c schema now e1 e4 h1 h4] at hr
      injection hr with hr'
      subst hr'
      show (e1 ++ actionRuleErrors pol c ++ ageRuleErrors pol c now ++ e4).any isExpiredErr = false
      rw [ageRule_empty_of_no_issuedAt pol c now h]
      simp [List.any_append, typeRule_no_expired pol c e1 h1, actionRule_no_expired,
        schemaRule_no_expired c schema e4 h4]

/-- Witness for C10 at the empty claims object. -/
theorem no_age_check_without_issuedAt_witness :
    effIssuedAt Claims.empty = none ∧
      (ageRuleErrors defaultPolicies Claims.empty 0 = [] ∧
        ∀ r, checkPolicyComplianceVal defaultPolicies (.vobj Claims.empty) none 0 = .ok r →
          r.errors.any isExpiredErr = false) :=
  ⟨rfl, no_age_check_without_issuedAt defaultPolicies Claims.empty none 0 rfl⟩

/-- C4 counterexample: a required schema key naming an inherited
`Object.prototype` member is never reported missing — with
`requiredSchema` demanding "toString" and a credentialSubject that has
no own properties at all, the source's `in` check finds the inherited
`Object.prototype.toString`, pushes no error, and the result is even
fully compliant, so the errors list does not contain one entry per
violated (missing-key) rule. -/
theorem schema_inherited_key_not_missing :
    checkPolicyComplianceVal defaultPolicies
        (.vobj ⟨some (.arr ["TaskLogCredential"]), none, some (.obj ⟨none, none, none, []⟩)⟩)
        (some ["toString"]) 0 = .ok { compliant := true, errors := [] } := rfl

/-- C4 (amended): whenever neither throwing rule fires (rule 1 throws
on a truthy `type` without `.includes`, rule 4 on `in` against a
primitive subject), `checkPolicyCompliance` evaluates all four rules
without short-circuiting: the errors list is the concatenation, in
source order, of the four independent rule checks — the first three
contribute at most one entry each, and the schema rule one entry per
required key that is neither an own property of the credentialSubject
nor an inherited `Object.prototype` name (JavaScript `in` counts
inherited names such as "toString" as present) — and `compliant` is
true exactly when that list is empty. -/
theorem compliance_collects_all_violations (pol : Policies) (c : Claims)
    (schema : Option (List String)) (now : Int) (e1 e4 : List PolicyError)
    (h1 : typeRuleCheck pol c = .ok e1) (h4 : schemaRuleCheck c schema = .ok e4) :
    ∃ r, checkPolicyComplianceVal pol (.vobj c) schema now = .ok r ∧
      r.errors = e1 ++ actionRuleErrors pol c ++ ageRuleErrors pol c now ++ e4 ∧
      r.compliant = r.errors.isEmpty ∧
      e1.length ≤ 1 ∧
      (actionRuleErrors pol c).length ≤ 1 ∧
      (ageRuleErrors pol c now).length ≤ 1 := by
  refine ⟨_, compliance_result_eq pol c schema now e1 e4 h1 h4, rfl, rfl,
    typeRule_len pol c e1 h1, ?_, ?_⟩
  · unfold actionRuleErrors
    rcases effAction c with _ | a
    · simp
    · dsimp only
      split <;> simp
  · unfold ageRuleErrors
    rcases effIssuedAt c with _ | t
    · simp
    · dsimp only
      split <;> simp

/-- Witness for the amended C4 at the empty claims object. -/
theorem compliance_collects_all_violations_witness :
    typeRuleCheck defaultPolicies Claims.empty = .ok [.missingRequiredType ["TaskLogCredential"]] ∧
      schemaRuleCheck Claims.empty none = .ok [] ∧
      ∃ r, checkPolicyComplianceVal defaultPolicies (.vobj Claims.empty) none 0 = .ok r ∧
        r.errors = [.missingRequiredType ["TaskLogCredential"]] ++ actionRuleErrors defaultPolicies Claims.empty
          ++ ageRuleErrors defaultPolicies Claims.empty 0 ++ [] ∧
        r.compliant = r.errors.isEmpty ∧
        ([.missingRequiredType ["TaskLogCredential"]] : List PolicyError).length ≤ 1 ∧
        (actionRuleErrors defaultPolicies Claims.empty).length ≤ 1 ∧
        (ageRuleErrors defaultPolicies Claims.empty 0).length ≤ 1 :=
  ⟨rfl, rfl, compliance_collects_all_violations defaultPolicies Claims.empty none 0
    [.missingRequiredType ["TaskLogCredential"]] [] rfl rfl⟩

/-- C5: with the configured `maxVCAge` of 3600 s, claims whose
`credentialSubject.issuedAt` lies 3601 s in the past yield an expiry
violation, while otherwise identical claims issued 3599 s in the past
yield none — the age `(now - issuedAt)/1000` is compared strictly
against the maximum. -/
theorem compliance_freshness_boundary (now : Int) (idv : Option String)
    (tl : Option TaskLog) (ks : List String) (ty : Option (List String))
    (vcp : Option (Option (List String) × Option CredentialSubject))
    (schema : Option (List String)) :
    (∃ r, checkPolicyComplianceVal defaultPolicies
        (.vobj ⟨ty.map TypeVal.arr,
          vcp.map (fun p => ⟨p.1.map TypeVal.arr, p.2.map SubjVal.obj⟩),
          some (.obj ⟨idv, tl, some (now - 3601000), ks⟩)⟩) schema now = .ok r ∧
        r.errors.any isExpiredErr = true) ∧
      ∃ r, checkPolicyComplianceVal defaultPolicies
        (.vobj ⟨ty.map TypeVal.arr,
          vcp.map (fun p => ⟨p.1.map TypeVal.arr, p.2.map SubjVal.obj⟩),
          some (.obj ⟨idv, tl, some (now - 3599000), ks⟩)⟩) schema now = .ok r ∧
        r.errors.any isExpiredErr = false := by
  have hty : ∀ sv : SubjVal, ∃ e1, typeRuleCheck defaultPolicies
      ⟨ty.map TypeVal.arr, vcp.map (fun p => ⟨p.1.map TypeVal.arr, p.2.map SubjVal.obj⟩),
        some sv⟩ = .ok e1 := by
    intro sv
    rcases ty with _ | tags
    · rcases vcp with _ | p
      · exact ⟨_, by rfl⟩
      · rcases p with ⟨vty, vsub⟩
        rcases vty with _ | l
        · exact ⟨_, by rfl⟩
        · exact ⟨_, by rfl⟩
    · exact ⟨_, by rfl⟩
  have hsch : ∀ s : CredentialSubject, ∃ e4, schemaRuleCheck
      ⟨ty.map TypeVal.arr, vcp.map (fun p => ⟨p.1.map TypeVal.arr, p.2.map SubjVal.obj⟩),
        some (.obj s)⟩ schema = .ok e4 := by
    intro s
    cases schema with
    | none => exact ⟨_, by rfl⟩
    | some keys => exact ⟨_, by rfl⟩
  constructor
  · obtain ⟨e1, he1⟩ := hty (.obj ⟨idv, tl, some (now - 3601000), ks⟩)
    obtain ⟨e4, he4⟩ := hsch ⟨idv, tl, some (now - 3601000), ks⟩
    refine ⟨_, compliance_result_eq defaultPolicies _ schema now e1 e4 he1 he4, ?_⟩
    show (e1 ++ actionRuleErrors defaultPolicies _ ++ ageRuleErrors defaultPolicies _ now
      ++ e4).any isExpiredErr = true
    have hage : (ageRuleErrors defaultPolicies
        ⟨ty.map TypeVal.arr, vcp.map (fun p => ⟨p.1.map TypeVal.arr, p.2.map SubjVal.obj⟩),
          some (.obj ⟨idv, tl, some (now - 3601000), ks⟩)⟩ now).any isExpiredErr = true := by
      unfold ageRuleErrors
      rw [show effIssuedAt ⟨ty.map TypeVal.arr,
          vcp.map (fun p => ⟨p.1.map TypeVal.arr, p.2.map SubjVal.obj⟩),
          some (.obj ⟨idv, tl, some (now - 3601000), ks⟩)⟩ = some (now - 3601000) from rfl]
      dsimp only
      rw [show ((defaultPolicies.maxVCAge : Nat) : Int) = 3600 from rfl]
      split
      · rfl
      · exfalso
        omega
    simp [List.any_append, hage]
  · obtain ⟨e1, he1⟩ := hty (.obj ⟨idv, tl, some (now - 3599000), ks⟩)
    obtain ⟨e4, he4⟩ := hsch ⟨idv, tl, some (now - 3599000), ks⟩
    refine ⟨_, compliance_result_eq defaultPolicies _ schema now e1 e4 he1 he4, ?_⟩
    show (e1 ++ actionRuleErrors defaultPolicies _ ++ ageRuleErrors defaultPolicies _ now
      ++ e4).any isExpiredErr = false
    have hage : ageRuleErrors defaultPolicies
        ⟨ty.map TypeVal.arr, vcp.map (fun p => ⟨p.1.map TypeVal.arr, p.2.map SubjVal.obj⟩),
          some (.obj ⟨idv, tl, some (now - 3599000), ks⟩)⟩ now = [] := by
      unfold ageRuleErrors
      rw [show effIssuedAt ⟨ty.map TypeVal.arr,
          vcp.map (fun p => ⟨p.1.map TypeVal.arr, p.2.map SubjVal.obj⟩),
          some (.obj ⟨idv, tl, some (now - 3599000), ks⟩)⟩ = some (now - 3599000) from rfl]
      dsimp only
      rw [show ((defaultPolicies.maxVCAge : Nat) : Int) = 3600 from rfl]
      split
      · exfalso
        omega
      · rfl
    simp [List.any_append, hage, typeRule_no_expired defaultPolicies _ e1 he1,
      actionRule_no_expired, schemaRule_no_expired _ schema e4 he4]

/-- C3: presentation verification is all-or-nothing — if any embedded
credential's signature fails to verify, the verification step fails and
the handler answers with a structured rejection (no credential list and
no token in the body), for every request. -/
theorem presentation_all_or_nothing (pol : Policies) (vp : Option String)
    (now : Int) (p : PresentationToken)
    (h : ∃ c ∈ p.credentials, c.signatureValid = false) :
    (∃ msg, verifyPresentationModel p = .failure msg) ∧
      ∃ st r, handleAuthenticate pol vp (verifyPresentationModel p) now =
        { status := st, body := .rejected r } := by
  have hany : (p.credentials.any fun c => !c.signatureValid) = true := by
    obtain ⟨c, hc, hv⟩ := h
    exact List.any_eq_true.mpr ⟨c, hc, by rw [hv]; rfl⟩
  have hfail : ∃ msg, verifyPresentationModel p = .failure msg := by
    unfold verifyPresentationModel
    by_cases hh : p.holderSignatureValid
    · exact ⟨"invalid_credential_signature", by rw [hh, hany]; rfl⟩
    · rw [Bool.not_eq_true] at hh
      exact ⟨"invalid_signature", by rw [hh]; rfl⟩
  obtain ⟨msg, hm⟩ := hfail
  refine ⟨⟨msg, hm⟩, ?_⟩
  rw [hm]
  cases vp with
  | none => exact ⟨401, .vpRequired, rfl⟩
  | some s =>
    unfold handleAuthenticate
    dsimp only
    by_cases hs : s = ""
    · rw [if_pos hs]
      exact ⟨401, .vpRequired, rfl⟩
    · rw [if_neg hs]
      exact ⟨403, .verifyError msg, rfl⟩

/-- Witness for C3: a presentation holding one invalid credential. -/
theorem presentation_all_or_nothing_witness :
    (∃ c ∈ (⟨true, [⟨.vobj Claims.empty, false⟩]⟩ : PresentationToken).credentials,
        c.signatureValid = false) ∧
      ((∃ msg, verifyPresentationModel ⟨true, [⟨.vobj Claims.empty, false⟩]⟩ = .failure msg) ∧
        ∃ st r, handleAuthenticate defaultPolicies (some "vp-jwt")
          (verifyPresentationModel ⟨true, [⟨.vobj Claims.empty, false⟩]⟩) 0 =
            { status := st, body := .rejected r }) :=
  ⟨⟨⟨.vobj Claims.empty, false⟩, by decide, rfl⟩,
    presentation_all_or_nothing defaultPolicies (some "vp-jwt") 0
      ⟨true, [⟨.vobj Claims.empty, false⟩]⟩ ⟨⟨.vobj Claims.empty, false⟩, by decide, rfl⟩⟩

/-- C1: the handler issues an Authorization Token exactly when every
gating step — presence of the presentation, signature verification,
credential extraction, the revocation check, the policy compliance
check, and the authorization decision, in that (source) order —
succeeds; every other outcome is a structured rejection carrying the
failure reason, with status 401 or 403 and no token. -/
theorem authenticate_token_iff_checks (pol : Policies) (vp : Option String)
    (verify : VerifyOutcome) (now : Int) :
    issuesToken (handleAuthenticate pol vp verify now) = checksPass pol vp verify now ∧
      ((issuesToken (handleAuthenticate pol vp verify now) = true ∧
          (handleAuthenticate pol vp verify now).status = 200) ∨
        (isRejection (handleAuthenticate pol vp verify now) = true ∧
          ((handleAuthenticate pol vp verify now).status = 401 ∨
            (handleAuthenticate pol vp verify now).status = 403))) := by
  cases vp with
  | none => exact ⟨rfl, Or.inr ⟨rfl, Or.inl rfl⟩⟩
  | some s =>
    by_cases hs : s = ""
    · simp [handleAuthenticate, checksPass, issuesToken, isRejection, hs]
    · cases verify with
      | failure msg =>
        simp [handleAuthenticate, checksPass, issuesToken, isRejection, hs]
      | success vvp =>
        by_cases hc : (extractCredExpr vvp).truthy
        · cases hcomp : checkPolicyComplianceVal pol (extractCredExpr vvp) none now with
          | error e =>
            simp [handleAuthenticate, checksPass, issuesToken, isRejection, hs, hc,
              hcomp, checkRevocationStatus]
          | ok comp =>
            by_cases hcc : comp.compliant
            · cases hauth : authorizeVal (extractCredExpr vvp) with
              | error e =>
                simp [handleAuthenticate, checksPass, issuesToken, isRejection, hs, hc,
                  hcomp, hcc, hauth, checkRevocationStatus]
              | ok auth =>
                by_cases ha : auth.authorized
                · simp [handleAuthenticate, checksPass, issuesToken, isRejection, hs, hc,
                    hcomp, hcc, hauth, ha, checkRevocationStatus]
                · rw [Bool.not_eq_true] at ha
                  simp [handleAuthenticate, checksPass, issuesToken, isRejection, hs, hc,
                    hcomp, hcc, hauth, ha, checkRevocationStatus]
            · rw [Bool.not_eq_true] at hcc
              simp [handleAuthenticate, checksPass, issuesToken, isRejection, hs, hc,
                hcomp, hcc, checkRevocationStatus]
        · rw [Bool.not_eq_true] at hc
          simp [handleAuthenticate, checksPass, issuesToken, isRejection, hs, hc,
            checkRevocationStatus]

end A2ADID
